import Mathlib

/-!
# Verification of the CYT surveillance-detection engine

Shallow embedding of the core of the `cyt` repository:

* `surveillance_detector.py` — the persistence scorer and the batch analysis pass;
* `gps_tracker.py` — the GPS location-clustering session manager;
* `secure_main_logic.py` / `secure_database.py` — the rolling-window tracker.

Python floats are modelled as exact rationals (`ℚ`) for the scorer and the
rolling-window time arithmetic, and as reals (`ℝ`) for the GPS geometry, which
uses transcendental functions.  Python sets are modelled as `Finset String`.
-/

namespace CYT

/-! ## Data model of the surveillance detector (`surveillance_detector.py`) -/

/-- A device sighting record (source: `surveillance_detector.py`,
`DeviceAppearance`).  Timestamps are seconds since epoch.  The optional
`signal_strength`/`device_type` fields play no role in any scored quantity and
are omitted. -/
structure DeviceAppearance where
  mac : String
  timestamp : ℚ
  location_id : String
  ssids_probed : List String
deriving DecidableEq, Repr

/-- A reason attached to a persistence score.  The Python code produces
formatted strings; the embedding keeps each message's numeric payload:
`appeared n h` stands for `f"Appeared {n} times over {h:.1f} hours"` and
`followedAcross k` for `f"Followed across {k} different locations"`. -/
inductive Reason where
  | appeared (count : Nat) (hours : ℚ)
  | followedAcross (locations : Nat)
deriving DecidableEq, Repr

/-- Python `timestamps = [a.timestamp for a in appearances]` -/
def timestamps (appearances : List DeviceAppearance) : List ℚ :=
  appearances.map (·.timestamp)

/-- Python `max(timestamps)` — maximum of the timestamp list (0 for the empty list,
which the scorer never queries: it returns before touching timestamps when
`len(appearances) < 3`). -/
def maxTimestamp (appearances : List DeviceAppearance) : ℚ :=
  ((timestamps appearances).toFinset.max).unbot' 0

/-- Python `min(timestamps)` — minimum of the timestamp list (0 for the empty list). -/
def minTimestamp (appearances : List DeviceAppearance) : ℚ :=
  ((timestamps appearances).toFinset.min).untop' 0

/-- Python `time_span_hours = (max(timestamps) - min(timestamps)) / 3600` -/
def time_span_hours (appearances : List DeviceAppearance) : ℚ :=
  (maxTimestamp appearances - minTimestamp appearances) / 3600

/-- Python `appearance_rate = len(appearances) / time_span_hours` -/
def appearance_rate (appearances : List DeviceAppearance) : ℚ :=
  (appearances.length : ℚ) / time_span_hours appearances

/-- Python `len(set(a.location_id for a in appearances))` -/
def unique_locations (appearances : List DeviceAppearance) : Nat :=
  (appearances.map (·.location_id)).toFinset.card

/-- Source `SurveillanceDetector._calculate_persistence_score`
(`surveillance_detector.py`, lines 98–130): needs at least 3 appearances,
a time span of at least one hour and a rate of at least 0.5/h; base score
`min(rate / 2, 1.0)`, plus 0.3 (re-capped at 1.0) when the device was seen
at more than one distinct location. -/
def calculate_persistence_score (appearances : List DeviceAppearance) :
    ℚ × List Reason :=
  if appearances.length < 3 then (0, [])
  else if time_span_hours appearances < 1 then (0, [])
  else if appearance_rate appearances ≥ 1/2 then
    let score := min (appearance_rate appearances / 2) 1
    let reasons := [Reason.appeared appearances.length (time_span_hours appearances)]
    if unique_locations appearances > 1 then
      (min (score + 3/10) 1, reasons ++ [Reason.followedAcross (unique_locations appearances)])
    else
      (score, reasons)
  else (0, [])

/-- Concrete scorer input used by witnesses below: the spec's own test
scenario — a device appearing four times over 1.5 hours across two location
tags. -/
def demoHistory : List DeviceAppearance :=
  [⟨"AA:BB:CC:DD:EE:FF", 0, "home", []⟩,
   ⟨"AA:BB:CC:DD:EE:FF", 1800, "work", []⟩,
   ⟨"AA:BB:CC:DD:EE:FF", 3600, "home", []⟩,
   ⟨"AA:BB:CC:DD:EE:FF", 5400, "work", []⟩]

/-- A flagged device (source: `surveillance_detector.py`, `SuspiciousDevice`).
`first_seen`/`last_seen` are kept as raw epoch timestamps; `locations_seen`
(Python `list(set(...))`, whose order is unspecified) is kept as a finite set. -/
structure SuspiciousDevice where
  mac : String
  persistence_score : ℚ
  appearances : List DeviceAppearance
  reasons : List Reason
  first_seen : ℚ
  last_seen : ℚ
  total_appearances : Nat
  locations_seen : Finset String
deriving DecidableEq

/-- Construction of the `SuspiciousDevice` record for one `(mac, appearances)`
entry of `device_history` (`analyze_surveillance_patterns`, lines 82–91). -/
def mk_suspicious_device (mac : String) (appearances : List DeviceAppearance) :
    SuspiciousDevice :=
  { mac := mac
    persistence_score := (calculate_persistence_score appearances).1
    appearances := appearances
    reasons := (calculate_persistence_score appearances).2
    first_seen := minTimestamp appearances
    last_seen := maxTimestamp appearances
    total_appearances := appearances.length
    locations_seen := (appearances.map (·.location_id)).toFinset }

/-- Threshold `thresholds['min_appearances'] = 3` -/
def min_appearances : Nat := 3

/-- Threshold `thresholds['min_persistence_score'] = 0.5` -/
def min_persistence_score : ℚ := 1/2

/-- Source `SurveillanceDetector.analyze_surveillance_patterns`
(`surveillance_detector.py`, lines 71–96).  `device_history` is the insertion
ordered association of device identifier to appearance list; entries with
fewer than `min_appearances` appearances are skipped, the rest are scored and
kept when the score exceeds `min_persistence_score`, and the result is sorted
descending by score (`list.sort(key=..., reverse=True)`, a stable sort). -/
def analyze_surveillance_patterns
    (device_history : List (String × List DeviceAppearance)) :
    List SuspiciousDevice :=
  ((device_history.filter fun p =>
      decide (min_appearances ≤ p.2.length) &&
        decide (min_persistence_score < (calculate_persistence_score p.2).1)).map
    fun p => mk_suspicious_device p.1 p.2).mergeSort
    fun a b => decide (b.persistence_score ≤ a.persistence_score)

/-! ## GPS location-clustering session manager (`gps_tracker.py`)

Coordinates, distances and times are idealized real numbers (the Python code
uses floats and the transcendental functions of `math`).  The `time.time()`
calls are modelled by an explicit `now` parameter.  The decimal rendering of
coordinates in the fallback cluster name (`f"loc_{lat:.4f}_{lon:.4f}"`) is
abstracted as an explicit `coordinate_name` function parameter: decimal
formatting of a real number is presentation, and no claim depends on the
produced text. -/

/-- GPS coordinate with metadata (`GPSLocation`). -/
structure GPSLocation where
  latitude : ℝ
  longitude : ℝ
  timestamp : ℝ
  location_name : Option String

/-- A session at a clustered location (`LocationSession`). -/
structure LocationSession where
  location : GPSLocation
  start_time : ℝ
  end_time : ℝ
  devices_seen : List String
  session_id : String

/-- State of `GPSTracker`: the raw reading list, the session list and the
current session.  The Python `current_location` attribute aliases an entry of
`location_sessions`; the embedding represents it by its index. -/
structure GPSTracker where
  locations : List GPSLocation
  location_sessions : List LocationSession
  current_location : Option ℕ

/-- Source `location_threshold = 100` (meters). -/
def location_threshold : ℝ := 100

/-- Source `session_timeout = 600` (seconds). -/
def session_timeout : ℝ := 600

/-- Python `math.radians`: degrees to radians. -/
noncomputable def radians (degrees : ℝ) : ℝ := degrees * Real.pi / 180

/-- Python `math.atan2 y x`. -/
noncomputable def atan2 (y x : ℝ) : ℝ :=
  if 0 < x then Real.arctan (y / x)
  else if x < 0 then
    if 0 ≤ y then Real.arctan (y / x) + Real.pi
    else Real.arctan (y / x) - Real.pi
  else if 0 < y then Real.pi / 2
  else if y < 0 then -(Real.pi / 2)
  else 0

/-- Source `GPSTracker._calculate_distance` (lines 126–143): haversine great-circle
distance in meters, Earth radius 6 371 000 m. -/
noncomputable def calculate_distance (loc1 loc2 : GPSLocation) : ℝ :=
  let R : ℝ := 6371000
  let lat1_rad := radians loc1.latitude
  let lat2_rad := radians loc2.latitude
  let delta_lat := radians (loc2.latitude - loc1.latitude)
  let delta_lon := radians (loc2.longitude - loc1.longitude)
  let a := Real.sin (delta_lat / 2) * Real.sin (delta_lat / 2) +
    Real.cos lat1_rad * Real.cos lat2_rad *
      Real.sin (delta_lon / 2) * Real.sin (delta_lon / 2)
  let c := 2 * atan2 (Real.sqrt a) (Real.sqrt (1 - a))
  R * c

/-- The session-search loop of `_get_location_cluster_id` (lines 76–79):
return the *first* session in list order whose representative location lies
within `location_threshold` of the reading. -/
noncomputable def find_session_within_threshold (location : GPSLocation) :
    List LocationSession → Option LocationSession
  | [] => none
  | session :: rest =>
    if calculate_distance location session.location ≤ location_threshold then
      some session
    else find_session_within_threshold location rest

/-- Python `location.location_name.replace(' ', '_')` — written on the character
list so the kernel can evaluate it. -/
def replace_spaces (name : String) : String :=
  String.mk (name.data.map fun c => if c = ' ' then '_' else c)

/-- Decimal numeral of a natural number — the rendering of `{counter}` in the
Python f-string `f"{base_name}_{counter}"`.  Written via `Nat.digits` (most
significant digit first), which agrees with decimal rendering and makes
injectivity provable. -/
def decimal_repr (n : ℕ) : String :=
  if n = 0 then "0" else String.mk (((Nat.digits 10 n).map Nat.digitChar).reverse)

/-- Embedding of the `# Make unique` suffix loop of `_get_location_cluster_id`
(lines 88–94): starting from `counter = 1`, keep trying
`f"{base_name}_{counter}"` until the candidate is not among the existing
session ids.  The loop is embedded with explicit fuel; `existing.length + 1`
candidates always contain a fresh one. -/
def fresh_id_aux (base : String) (existing : List String) :
    ℕ → ℕ → String
  | 0, counter => base ++ "_" ++ decimal_repr counter
  | fuel + 1, counter =>
    let candidate := base ++ "_" ++ decimal_repr counter
    if candidate ∈ existing then fresh_id_aux base existing fuel (counter + 1)
    else candidate

/-- Python `location_id = base_name; counter = 1; while location_id in existing_ids: ...` -/
def fresh_location_id (base : String) (existing : List String) : String :=
  if base ∈ existing then fresh_id_aux base existing (existing.length + 1) 1
  else base

/-- Source `GPSTracker._get_location_cluster_id` (lines 73–96). -/
noncomputable def get_location_cluster_id (coordinate_name : ℝ → ℝ → String)
    (st : GPSTracker) (location : GPSLocation) : String :=
  match find_session_within_threshold location st.location_sessions with
  | some session => session.session_id
  | none =>
    let base_name :=
      match location.location_name with
      | some name => replace_spaces name
      | none => coordinate_name location.latitude location.longitude
    fresh_location_id base_name (st.location_sessions.map (·.session_id))

/-- The session-continuation loop of `_update_current_session`
(lines 104–110): index of the first session whose id equals `location_id`
*and* whose end time is within `session_timeout` of `now` (a session that
matches the id but fails the timeout check does not stop the loop). -/
noncomputable def find_continuable_session (location_id : String) (now : ℝ) :
    List LocationSession → Option ℕ
  | [] => none
  | session :: rest =>
    if session.session_id = location_id ∧ now - session.end_time ≤ session_timeout then
      some 0
    else (find_continuable_session location_id now rest).map (· + 1)

/-- Source `GPSTracker._update_current_session` (lines 98–124): extend a continuable
session's end time, or append a brand-new session with the given id; either
way the touched session becomes current. -/
noncomputable def update_current_session (location : GPSLocation)
    (location_id : String) (now : ℝ) (st : GPSTracker) : GPSTracker :=
  match find_continuable_session location_id now st.location_sessions with
  | some i =>
    { st with
        location_sessions :=
          st.location_sessions.modify (fun s => { s with end_time := now }) i
        current_location := some i }
  | none =>
    { st with
        location_sessions := st.location_sessions ++
          [{ location := location, start_time := now, end_time := now,
             devices_seen := [], session_id := location_id }]
        current_location := some st.location_sessions.length }

/-- Source `GPSTracker.add_gps_reading` (lines 47–71): record the reading, compute
its cluster id and update the current session.  Returns the location id. -/
noncomputable def add_gps_reading (coordinate_name : ℝ → ℝ → String)
    (now latitude longitude : ℝ) (location_name : Option String)
    (st : GPSTracker) : String × GPSTracker :=
  let location : GPSLocation :=
    { latitude := latitude, longitude := longitude, timestamp := now,
      location_name := location_name }
  let st' := { st with locations := st.locations ++ [location] }
  let location_id := get_location_cluster_id coordinate_name st' location
  (location_id, update_current_session location location_id now st')

/-- The conditional append of `add_device_at_current_location` (lines
151–152): `if mac not in current.devices_seen: current.devices_seen.append(mac)`. -/
def add_device_update (mac : String) (s : LocationSession) : LocationSession :=
  if mac ∈ s.devices_seen then s
  else { s with devices_seen := s.devices_seen ++ [mac] }

/-- Source `GPSTracker.add_device_at_current_location` (lines 145–155): with no
current session return `none` and change nothing; otherwise add the device to
the current session's device list unless already present, and return the
session id. -/
def add_device_at_current_location (mac : String) (st : GPSTracker) :
    Option String × GPSTracker :=
  match st.current_location with
  | none => (none, st)
  | some i =>
    ((st.location_sessions[i]?).map (·.session_id),
     { st with
         location_sessions :=
           st.location_sessions.modify (add_device_update mac) i })

/-- Stand-in coordinate formatter used by concrete counterexample states (all
of which pass an explicit label, so the formatter is never consulted). -/
def coordinate_name_stub : ℝ → ℝ → String := fun _ _ => "loc"

/-- Counterexample state for the nearest-session claim: two sessions on the
same meridian, 0.0012° (≈ 133 m) apart. -/
def cxSessionA : LocationSession :=
  { location := { latitude := 0, longitude := 0, timestamp := 0,
                  location_name := some "A" },
    start_time := 0, end_time := 0, devices_seen := [], session_id := "A" }

def cxSessionB : LocationSession :=
  { location := { latitude := 0.0012, longitude := 0, timestamp := 0,
                  location_name := some "B" },
    start_time := 0, end_time := 0, devices_seen := [], session_id := "B" }

def cxTracker : GPSTracker :=
  { locations := [], location_sessions := [cxSessionA, cxSessionB],
    current_location := some 0 }

/-- A reading at latitude 0.0007° — ≈ 78 m from session `A` and ≈ 56 m from
session `B`: within the threshold of both, strictly nearer to `B`. -/
def cxReading : GPSLocation :=
  { latitude := 0.0007, longitude := 0, timestamp := 100, location_name := none }

/-- Concrete tracker used by the device-attribution witness. -/
def wSession : LocationSession :=
  { location := { latitude := 0, longitude := 0, timestamp := 0,
                  location_name := some "home" },
    start_time := 0, end_time := 0, devices_seen := ["AA:AA"], session_id := "home" }

def wTracker : GPSTracker :=
  { locations := [], location_sessions := [wSession], current_location := some 0 }

def wTrackerNone : GPSTracker :=
  { locations := [], location_sessions := [wSession], current_location := none }

/-! ## Rolling-window tracker (`secure_main_logic.py`, `secure_database.py`)

Python sets become `Finset String`; the Kismet `devices` table becomes a list
of rows carrying the three columns the monitor reads.  Timestamps are exact
rationals. -/

/-- Python `str.upper()` on the (ASCII) identifiers handled by the monitor, written
characterwise. -/
def py_upper (s : String) : String := String.mk (s.data.map Char.toUpper)

/-- One row of the Kismet `devices` table, restricted to what the monitor
reads: `devmac`, `last_time`, and the probed SSID found in the device JSON
(`none` when the device carries no probe record). -/
structure KismetRow where
  devmac : String
  last_time : ℚ
  probed_ssid : Option String
deriving DecidableEq, Repr

/-- The devices table. -/
abbrev KismetDB := List KismetRow

/-- The row filter of `SecureKismetDB.get_devices_by_time_range`
(`secure_database.py`, lines 56–97): `last_time >= start_time` and, when an
end bound is supplied, `last_time <= end_time`. -/
def in_time_range (start_time : ℚ) (end_time : Option ℚ) (r : KismetRow) : Bool :=
  decide (start_time ≤ r.last_time) &&
    (match end_time with
     | some e => decide (r.last_time ≤ e)
     | none => true)

/-- Source `SecureKismetDB.get_mac_addresses_by_time_range` (lines 99–102): the
`devmac` column of the in-range rows, keeping only truthy (non-empty)
strings. -/
def get_mac_addresses_by_time_range (db : KismetDB) (start_time : ℚ)
    (end_time : Option ℚ) : List String :=
  ((db.filter (in_time_range start_time end_time)).map (·.devmac)).filter
    (fun mac => mac ≠ "")

/-- The probe-record extraction of `get_probe_requests_by_time_range`
(lines 104–142): the SSID is kept only when present and non-empty. -/
def extract_probe_ssid (r : KismetRow) : Option String :=
  match r.probed_ssid with
  | some ssid => if ssid ≠ "" then some ssid else none
  | none => none

/-- Source `SecureKismetDB.get_probe_requests_by_time_range`, projected to the
`ssid` field that the monitor consumes. -/
def get_probe_ssids_by_time_range (db : KismetDB) (start_time : ℚ)
    (end_time : Option ℚ) : List String :=
  (db.filter (in_time_range start_time end_time)).filterMap extract_probe_ssid

/-- The window boundaries produced by
`SecureTimeWindows.get_time_boundaries`. -/
structure TimeBoundaries where
  recent_time : ℚ
  medium_time : ℚ
  old_time : ℚ
  oldest_time : ℚ
deriving DecidableEq, Repr

/-- Bucket state of `SecureCYTMonitor`.  `__init__` stores the MAC ignore list
uppercased (`set(mac.upper() for mac in ignore_list)`) and the SSID ignore
list as given; the eight tracking buckets start empty. -/
structure SecureCYTMonitor where
  ignore_list : Finset String
  ssid_ignore_list : Finset String
  past_five_mins_macs : Finset String
  five_ten_min_ago_macs : Finset String
  ten_fifteen_min_ago_macs : Finset String
  fifteen_twenty_min_ago_macs : Finset String
  past_five_mins_ssids : Finset String
  five_ten_min_ago_ssids : Finset String
  ten_fifteen_min_ago_ssids : Finset String
  fifteen_twenty_min_ago_ssids : Finset String
deriving DecidableEq

/-- Source `SecureCYTMonitor.__init__` (lines 13–29). -/
def mk_monitor (ignore_list ssid_ignore_list : List String) : SecureCYTMonitor :=
  { ignore_list := (ignore_list.map py_upper).toFinset
    ssid_ignore_list := ssid_ignore_list.toFinset
    past_five_mins_macs := ∅
    five_ten_min_ago_macs := ∅
    ten_fifteen_min_ago_macs := ∅
    fifteen_twenty_min_ago_macs := ∅
    past_five_mins_ssids := ∅
    five_ten_min_ago_ssids := ∅
    ten_fifteen_min_ago_ssids := ∅
    fifteen_twenty_min_ago_ssids := ∅ }

/-- Source `SecureCYTMonitor._filter_macs` (lines 84–86):
`{mac.upper() for mac in mac_list if mac.upper() not in self.ignore_list}`. -/
def filter_macs (m : SecureCYTMonitor) (mac_list : List String) : Finset String :=
  ((mac_list.map py_upper).filter fun mac => mac ∉ m.ignore_list).toFinset

/-- Source `SecureCYTMonitor._filter_ssids` (lines 88–90):
`{ssid for ssid in ssid_list if ssid and ssid not in self.ssid_ignore_list}`. -/
def filter_ssids (m : SecureCYTMonitor) (ssid_list : List String) : Finset String :=
  (ssid_list.filter fun ssid => ssid ≠ "" ∧ ssid ∉ m.ssid_ignore_list).toFinset

/-- Source `SecureCYTMonitor._initialize_mac_lists` (lines 48–64; the leading
underscore name is shortened to avoid clash-prone text). -/
def init_mac_lists (db : KismetDB) (b : TimeBoundaries) (m : SecureCYTMonitor) :
    SecureCYTMonitor :=
  { m with
      past_five_mins_macs :=
        filter_macs m (get_mac_addresses_by_time_range db b.recent_time none)
      five_ten_min_ago_macs :=
        filter_macs m (get_mac_addresses_by_time_range db b.medium_time (some b.recent_time))
      ten_fifteen_min_ago_macs :=
        filter_macs m (get_mac_addresses_by_time_range db b.old_time (some b.medium_time))
      fifteen_twenty_min_ago_macs :=
        filter_macs m (get_mac_addresses_by_time_range db b.oldest_time (some b.old_time)) }

/-- Source `SecureCYTMonitor._initialize_ssid_lists` (lines 66–82). -/
def init_ssid_lists (db : KismetDB) (b : TimeBoundaries) (m : SecureCYTMonitor) :
    SecureCYTMonitor :=
  { m with
      past_five_mins_ssids :=
        filter_ssids m (get_probe_ssids_by_time_range db b.recent_time none)
      five_ten_min_ago_ssids :=
        filter_ssids m (get_probe_ssids_by_time_range db b.medium_time (some b.recent_time))
      ten_fifteen_min_ago_ssids :=
        filter_ssids m (get_probe_ssids_by_time_range db b.old_time (some b.medium_time))
      fifteen_twenty_min_ago_ssids :=
        filter_ssids m (get_probe_ssids_by_time_range db b.oldest_time (some b.old_time)) }

/-- Source `SecureCYTMonitor.initialize_tracking_lists` (lines 31–46): MAC lists
first, then SSID lists. -/
def init_tracking_lists (db : KismetDB) (b : TimeBoundaries)
    (m : SecureCYTMonitor) : SecureCYTMonitor :=
  init_ssid_lists db b (init_mac_lists db b m)

/-- Source `SecureCYTMonitor.rotate_tracking_lists` (lines 215–242): shift the three
historical buckets one step toward the oldest slot (whose previous value is
dropped) and refresh the current buckets with a fresh query. -/
def rotate_tracking_lists (db : KismetDB) (b : TimeBoundaries)
    (m : SecureCYTMonitor) : SecureCYTMonitor :=
  { m with
      fifteen_twenty_min_ago_macs := m.ten_fifteen_min_ago_macs
      ten_fifteen_min_ago_macs := m.five_ten_min_ago_macs
      five_ten_min_ago_macs := m.past_five_mins_macs
      past_five_mins_macs :=
        filter_macs m (get_mac_addresses_by_time_range db b.recent_time none)
      fifteen_twenty_min_ago_ssids := m.ten_fifteen_min_ago_ssids
      ten_fifteen_min_ago_ssids := m.five_ten_min_ago_ssids
      five_ten_min_ago_ssids := m.past_five_mins_ssids
      past_five_mins_ssids :=
        filter_ssids m (get_probe_ssids_by_time_range db b.recent_time none) }

/-- Tag naming the historical window in which a reappearance was signalled. -/
inductive Window where
  | fiveTen
  | tenFifteen
  | fifteenTwenty
deriving DecidableEq, Repr

/-- Source `SecureCYTMonitor._process_mac_tracking` (lines 191–213): the ignore
check uppercases the incoming MAC, but the three bucket-membership checks
test the *raw* string; the result lists the windows for which a
"Device reappeared" signal is emitted. -/
def process_mac_tracking (m : SecureCYTMonitor) (mac : String) : List Window :=
  if py_upper mac ∈ m.ignore_list then []
  else
    (if mac ∈ m.five_ten_min_ago_macs then [Window.fiveTen] else []) ++
    (if mac ∈ m.ten_fifteen_min_ago_macs then [Window.tenFifteen] else []) ++
    (if mac ∈ m.fifteen_twenty_min_ago_macs then [Window.fifteenTwenty] else [])

/-- Bucket state with one identifier sitting in both the 10–15 and the 15–20
minute MAC buckets (as happens after two rotations once a device was seen in
two consecutive query windows). -/
def cx8Monitor : SecureCYTMonitor :=
  { ignore_list := ∅
    ssid_ignore_list := ∅
    past_five_mins_macs := ∅
    five_ten_min_ago_macs := ∅
    ten_fifteen_min_ago_macs := {"AA:BB:CC:DD:EE:FF"}
    fifteen_twenty_min_ago_macs := {"AA:BB:CC:DD:EE:FF"}
    past_five_mins_ssids := ∅
    five_ten_min_ago_ssids := ∅
    ten_fifteen_min_ago_ssids := ∅
    fifteen_twenty_min_ago_ssids := ∅ }

/-- Empty boundaries used where the fresh query runs over an empty table. -/
def cx8Boundaries : TimeBoundaries :=
  { recent_time := 0, medium_time := 0, old_time := 0, oldest_time := 0 }

/-- A single device whose `last_time` falls exactly on the shared boundary of
the 0–5 and 5–10 minute query windows. -/
def cx9DB : KismetDB := [{ devmac := "AA:BB", last_time := 100, probed_ssid := none }]

def cx9Boundaries : TimeBoundaries :=
  { recent_time := 100, medium_time := 50, old_time := 25, oldest_time := 0 }

/-- Well-separated witness data: one device and one probe per window, none on
a boundary. -/
def wDB : KismetDB :=
  [{ devmac := "AA:AA", last_time := 70, probed_ssid := some "net1" },
   { devmac := "BB:BB", last_time := 50, probed_ssid := some "net2" },
   { devmac := "CC:CC", last_time := 30, probed_ssid := some "net3" },
   { devmac := "DD:DD", last_time := 10, probed_ssid := some "net4" }]

def wBnds : TimeBoundaries :=
  { recent_time := 60, medium_time := 40, old_time := 20, oldest_time := 0 }

/-! ## Theorems about the persistence scorer and the analysis pass -/

/-- Claim C1: The persistence scorer returns a zero score with an empty reason
list if and only if the history fails a qualifying condition: fewer than 3
entries, or a timestamp span of less than 1 hour, or an appearance rate below
0.5 per hour. -/
theorem persistence_score_zero_iff (appearances : List DeviceAppearance) :
    calculate_persistence_score appearances = (0, []) ↔
      (appearances.length < 3 ∨ time_span_hours appearances < 1 ∨
        appearance_rate appearances < 1/2) := by
  unfold calculate_persistence_score
  by_cases h3 : appearances.length < 3
  · simp [h3]
  · simp only [h3, if_false, false_or]
    by_cases hspan : time_span_hours appearances < 1
    · simp [hspan]
    · simp only [hspan, if_false, false_or]
      by_cases hrate : appearance_rate appearances ≥ 1/2
      · rw [if_pos hrate]
        constructor
        · intro h
          exfalso
          by_cases hu : unique_locations appearances > 1 <;> simp [hu] at h
        · intro h
          exact absurd h (not_lt.mpr hrate)
      · rw [if_neg hrate]
        exact iff_of_true rfl (lt_of_not_ge hrate)

/-- Claim C2: On a qualifying history (≥ 3 entries, span ≥ 1 h, rate ≥ 0.5/h)
the score is `min(rate / 2, 1)` for a single location tag and
`min(min(rate / 2, 1) + 0.3, 1)` (cap applied once, after the bonus) for more
than one distinct tag, with the appearance-count reason always present and the
followed-across-locations reason present exactly when more than one location
occurs. -/
theorem persistence_score_qualifying (appearances : List DeviceAppearance)
    (h3 : 3 ≤ appearances.length) (hspan : 1 ≤ time_span_hours appearances)
    (hrate : 1/2 ≤ appearance_rate appearances) :
    calculate_persistence_score appearances =
      if 1 < unique_locations appearances then
        (min (min (appearance_rate appearances / 2) 1 + 3/10) 1,
         [Reason.appeared appearances.length (time_span_hours appearances),
          Reason.followedAcross (unique_locations appearances)])
      else
        (min (appearance_rate appearances / 2) 1,
         [Reason.appeared appearances.length (time_span_hours appearances)]) := by
  unfold calculate_persistence_score
  rw [if_neg (by omega), if_neg (by linarith), if_pos (by exact hrate)]
  by_cases hu : unique_locations appearances > 1 <;> simp [hu]

lemma demoHistory_span : time_span_hours demoHistory = 3/2 := by
  have hmax : maxTimestamp demoHistory = 5400 := by decide
  have hmin : minTimestamp demoHistory = 0 := by decide
  unfold time_span_hours
  rw [hmax, hmin]
  norm_num

lemma demoHistory_rate : appearance_rate demoHistory = 8/3 := by
  unfold appearance_rate
  rw [demoHistory_span, show demoHistory.length = 4 from rfl]
  norm_num

theorem persistence_score_qualifying_witness :
    3 ≤ demoHistory.length ∧ 1 ≤ time_span_hours demoHistory ∧
      1/2 ≤ appearance_rate demoHistory ∧
      calculate_persistence_score demoHistory =
        if 1 < unique_locations demoHistory then
          (min (min (appearance_rate demoHistory / 2) 1 + 3/10) 1,
           [Reason.appeared demoHistory.length (time_span_hours demoHistory),
            Reason.followedAcross (unique_locations demoHistory)])
        else
          (min (appearance_rate demoHistory / 2) 1,
           [Reason.appeared demoHistory.length (time_span_hours demoHistory)]) :=
  ⟨by decide, by rw [demoHistory_span]; norm_num, by rw [demoHistory_rate]; norm_num,
    persistence_score_qualifying demoHistory (by decide)
      (by rw [demoHistory_span]; norm_num) (by rw [demoHistory_rate]; norm_num)⟩

lemma time_span_hours_perm {l l' : List DeviceAppearance} (h : l.Perm l') :
    time_span_hours l = time_span_hours l' := by
  unfold time_span_hours maxTimestamp minTimestamp timestamps
  rw [List.toFinset_eq_of_perm _ _ (h.map _)]

lemma appearance_rate_perm {l l' : List DeviceAppearance} (h : l.Perm l') :
    appearance_rate l = appearance_rate l' := by
  unfold appearance_rate
  rw [h.length_eq, time_span_hours_perm h]

lemma unique_locations_perm {l l' : List DeviceAppearance} (h : l.Perm l') :
    unique_locations l = unique_locations l' := by
  unfold unique_locations
  rw [List.toFinset_eq_of_perm _ _ (h.map _)]

lemma demoHistory_score :
    calculate_persistence_score demoHistory =
      (1, [Reason.appeared 4 (3/2), Reason.followedAcross 2]) := by
  unfold calculate_persistence_score
  rw [if_neg (by decide), if_neg (by rw [demoHistory_span]; norm_num),
    if_pos (by rw [demoHistory_rate]; norm_num)]
  have hu : unique_locations demoHistory > 1 := by decide
  rw [if_pos hu]
  have h1 : min (appearance_rate demoHistory / 2) 1 = 1 := by
    rw [demoHistory_rate]
    rw [min_eq_right (by norm_num)]
  rw [h1]
  have h2 : min ((1 : ℚ) + 3/10) 1 = 1 := min_eq_right (by norm_num)
  rw [h2, demoHistory_span, show demoHistory.length = 4 from rfl,
    show unique_locations demoHistory = 2 from by decide]
  rfl

/-- Claim C6: The persistence scorer is deterministic and permutation-invariant:
reordering the appearance history changes neither the score nor the reasons. -/
theorem persistence_score_perm_invariant (l l' : List DeviceAppearance)
    (h : l.Perm l') :
    calculate_persistence_score l = calculate_persistence_score l' := by
  unfold calculate_persistence_score
  rw [h.length_eq, time_span_hours_perm h, appearance_rate_perm h,
    unique_locations_perm h]

theorem persistence_score_perm_invariant_witness :
    calculate_persistence_score
        [⟨"AA", 3600, "home", []⟩, ⟨"AA", 0, "work", []⟩, ⟨"AA", 7200, "home", []⟩] =
      calculate_persistence_score
        [⟨"AA", 7200, "home", []⟩, ⟨"AA", 3600, "home", []⟩, ⟨"AA", 0, "work", []⟩] :=
  persistence_score_perm_invariant _ _ (by decide)

/-- Claim C3: The analysis pass returns a list sorted in descending order of
persistence score; a device record is in the output exactly when its history
has at least `min_appearances` entries and its score strictly exceeds
`min_persistence_score`; in particular every returned device has score
above 0.5. -/
theorem analyze_surveillance_patterns_spec
    (device_history : List (String × List DeviceAppearance)) :
    (analyze_surveillance_patterns device_history).Pairwise
        (fun a b => b.persistence_score ≤ a.persistence_score) ∧
      (∀ d, d ∈ analyze_surveillance_patterns device_history ↔
        ∃ p ∈ device_history, min_appearances ≤ p.2.length ∧
          min_persistence_score < (calculate_persistence_score p.2).1 ∧
          d = mk_suspicious_device p.1 p.2) ∧
      (∀ d ∈ analyze_surveillance_patterns device_history,
        min_persistence_score < d.persistence_score) := by
  have hmem : ∀ d, d ∈ analyze_surveillance_patterns device_history ↔
      ∃ p ∈ device_history, min_appearances ≤ p.2.length ∧
        min_persistence_score < (calculate_persistence_score p.2).1 ∧
        d = mk_suspicious_device p.1 p.2 := by
    intro d
    unfold analyze_surveillance_patterns
    rw [(List.mergeSort_perm _ _).mem_iff, List.mem_map]
    constructor
    · rintro ⟨p, hp, rfl⟩
      rw [List.mem_filter] at hp
      obtain ⟨hp, hcond⟩ := hp
      simp only [Bool.and_eq_true, decide_eq_true_eq] at hcond
      exact ⟨p, hp, hcond.1, hcond.2, rfl⟩
    · rintro ⟨p, hp, h1, h2, rfl⟩
      refine ⟨p, ?_, rfl⟩
      rw [List.mem_filter]
      simp only [Bool.and_eq_true, decide_eq_true_eq]
      exact ⟨hp, h1, h2⟩
  refine ⟨?_, hmem, ?_⟩
  · have := @List.sorted_mergeSort SuspiciousDevice
      (fun a b : SuspiciousDevice =>
        decide (b.persistence_score ≤ a.persistence_score))
      (fun a b c hab hbc => by
        simp only [decide_eq_true_eq] at *
        exact le_trans hbc hab)
      (fun a b => by
        simp only [Bool.or_eq_true, decide_eq_true_eq]
        exact le_total b.persistence_score a.persistence_score)
      ((device_history.filter fun p =>
          decide (min_appearances ≤ p.2.length) &&
            decide (min_persistence_score < (calculate_persistence_score p.2).1)).map
        fun p => mk_suspicious_device p.1 p.2)
    exact this.imp fun h => of_decide_eq_true h
  · intro d hd
    obtain ⟨p, _, _, hscore, rfl⟩ := (hmem d).mp hd
    exact hscore

theorem analyze_surveillance_patterns_spec_witness :
    mk_suspicious_device "AA:BB:CC:DD:EE:FF" demoHistory ∈
        analyze_surveillance_patterns [("AA:BB:CC:DD:EE:FF", demoHistory)] ∧
      min_persistence_score <
        (mk_suspicious_device "AA:BB:CC:DD:EE:FF" demoHistory).persistence_score := by
  have hspec := analyze_surveillance_patterns_spec [("AA:BB:CC:DD:EE:FF", demoHistory)]
  have hmem := (hspec.2.1 (mk_suspicious_device "AA:BB:CC:DD:EE:FF" demoHistory)).mpr
    ⟨("AA:BB:CC:DD:EE:FF", demoHistory), List.mem_singleton.mpr rfl, by decide,
      by rw [demoHistory_score]; norm_num [min_persistence_score], rfl⟩
  exact ⟨hmem, hspec.2.2 _ hmem⟩

/-! ## Theorems about the GPS session manager -/

lemma string_append_cancel_left {s t u : String} (h : s ++ t = s ++ u) : t = u := by
  have hd := congrArg String.data h
  rw [String.data_append, String.data_append] at hd
  exact String.ext (List.append_cancel_left hd)

lemma digitChar_inj_of_lt {a b : ℕ} (ha : a < 10) (hb : b < 10)
    (h : Nat.digitChar a = Nat.digitChar b) : a = b := by
  have key : ∀ x y : Fin 10, Nat.digitChar x.val = Nat.digitChar y.val → x = y := by decide
  exact congrArg Fin.val (key ⟨a, ha⟩ ⟨b, hb⟩ h)

lemma map_digitChar_inj : ∀ {l₁ l₂ : List ℕ}, (∀ x ∈ l₁, x < 10) →
    (∀ x ∈ l₂, x < 10) → l₁.map Nat.digitChar = l₂.map Nat.digitChar → l₁ = l₂ := by
  intro l₁
  induction l₁ with
  | nil =>
    intro l₂ _ _ h
    cases l₂ with
    | nil => rfl
    | cons b t => simp at h
  | cons a t ih =>
    intro l₂ h₁ h₂ h
    cases l₂ with
    | nil => simp at h
    | cons b t₂ =>
      simp only [List.map_cons, List.cons.injEq] at h
      have hab := digitChar_inj_of_lt (h₁ a (by simp)) (h₂ b (by simp)) h.1
      rw [hab, ih (fun x hx => h₁ x (by simp [hx])) (fun x hx => h₂ x (by simp [hx])) h.2]

lemma decimal_digits_string_ne_zero {n : ℕ} (hn : n ≠ 0) :
    String.mk (((Nat.digits 10 n).map Nat.digitChar).reverse) ≠ "0" := by
  intro h
  have hd : ((Nat.digits 10 n).map Nat.digitChar).reverse = ['0'] := by
    have := congrArg String.data h
    simpa using this
  have hlen : (Nat.digits 10 n).length = 1 := by
    have := congrArg List.length hd
    simpa using this
  obtain ⟨d, hd1⟩ := List.length_eq_one.mp hlen
  rw [hd1] at hd
  simp only [List.map_cons, List.map_nil, List.reverse_cons, List.reverse_nil,
    List.nil_append, List.cons.injEq, and_true] at hd
  have hdlt : d < 10 :=
    Nat.digits_lt_base (by norm_num) (hd1 ▸ List.mem_singleton_self d)
  have h0 : d = 0 := digitChar_inj_of_lt hdlt (by norm_num) (by rw [hd]; rfl)
  have hlast := Nat.getLast_digit_ne_zero 10 hn
  rw [List.getLast_congr _ _ hd1] at hlast
  · simp at hlast
    exact hlast h0
  · simp

lemma decimal_repr_injective : Function.Injective decimal_repr := by
  intro m n h
  unfold decimal_repr at h
  by_cases hm : m = 0 <;> by_cases hn : n = 0
  · rw [hm, hn]
  · rw [if_pos hm, if_neg hn] at h
    exact absurd h.symm (decimal_digits_string_ne_zero hn)
  · rw [if_neg hm, if_pos hn] at h
    exact absurd h (decimal_digits_string_ne_zero hm)
  · rw [if_neg hm, if_neg hn] at h
    have hdata : ((Nat.digits 10 m).map Nat.digitChar).reverse =
        ((Nat.digits 10 n).map Nat.digitChar).reverse := by
      have := congrArg String.data h
      simpa using this
    have hmap := List.reverse_injective hdata
    have hdig := map_digitChar_inj
      (fun x hx => Nat.digits_lt_base (by norm_num) hx)
      (fun x hx => Nat.digits_lt_base (by norm_num) hx) hmap
    have := congrArg (Nat.ofDigits 10) hdig
    rwa [Nat.ofDigits_digits, Nat.ofDigits_digits] at this

lemma candidate_injective (base : String) :
    Function.Injective fun k => base ++ "_" ++ decimal_repr k := by
  intro a b h
  dsimp only at h
  exact decimal_repr_injective (string_append_cancel_left h)

lemma exists_fresh_candidate (base : String) (existing : List String) :
    ∃ k, k < existing.length + 2 ∧
      base ++ "_" ++ decimal_repr (1 + k) ∉ existing := by
  by_contra hall
  push_neg at hall
  have hsub : ((List.range (existing.length + 2)).map
      fun k => base ++ "_" ++ decimal_repr (1 + k)) ⊆ existing := by
    intro s hs
    rw [List.mem_map] at hs
    obtain ⟨k, hk, rfl⟩ := hs
    exact hall k (List.mem_range.mp hk)
  have hinj : Function.Injective fun k => base ++ "_" ++ decimal_repr (1 + k) :=
    fun a b h => by
      have := candidate_injective base h
      omega
  have hnodup := List.Nodup.map hinj (List.nodup_range (existing.length + 2))
  have hle := (List.subperm_of_subset hnodup hsub).length_le
  rw [List.length_map, List.length_range] at hle
  omega

lemma fresh_id_aux_not_mem (base : String) (existing : List String) :
    ∀ (fuel counter : ℕ),
      (∃ k, k < fuel + 1 ∧ base ++ "_" ++ decimal_repr (counter + k) ∉ existing) →
      fresh_id_aux base existing fuel counter ∉ existing := by
  intro fuel
  induction fuel with
  | zero =>
    rintro counter ⟨k, hk, hfree⟩
    have hk0 : k = 0 := by omega
    subst hk0
    simpa [fresh_id_aux] using hfree
  | succ n ih =>
    rintro counter ⟨k, hk, hfree⟩
    by_cases hc : base ++ "_" ++ decimal_repr counter ∈ existing
    · rw [show fresh_id_aux base existing (n + 1) counter =
          fresh_id_aux base existing n (counter + 1) from by
        simp [fresh_id_aux, hc]]
      apply ih
      have hk0 : k ≠ 0 := by
        rintro rfl
        rw [Nat.add_zero] at hfree
        exact hfree hc
      refine ⟨k - 1, by omega, ?_⟩
      rw [show counter + 1 + (k - 1) = counter + k from by omega]
      exact hfree
    · intro hmem
      rw [show fresh_id_aux base existing (n + 1) counter =
          base ++ "_" ++ decimal_repr counter from by simp [fresh_id_aux, hc]] at hmem
      exact hc hmem

/-- Claim C4, amended: The numeric-suffix loop does guarantee that the
identifier generated for a *new* cluster differs from every identifier already
present; global per-session uniqueness nevertheless fails (see the
counterexample), because re-entering a timed-out cluster creates a second
session carrying the cluster's existing id. -/
theorem fresh_location_id_not_mem (base : String) (existing : List String) :
    fresh_location_id base existing ∉ existing := by
  unfold fresh_location_id
  by_cases hb : base ∈ existing
  · rw [if_pos hb]
    apply fresh_id_aux_not_mem
    obtain ⟨k, hk, hfree⟩ := exists_fresh_candidate base existing
    exact ⟨k, by omega, hfree⟩
  · rw [if_neg hb]
    exact hb

theorem fresh_location_id_not_mem_witness :
    fresh_location_id "home" ["home", "home_1"] ∉ ["home", "home_1"] :=
  fresh_location_id_not_mem "home" ["home", "home_1"]

lemma radians_zero : radians 0 = 0 := by
  unfold radians
  ring

lemma atan2_sin_cos {x : ℝ} (hx0 : 0 ≤ x) (hx : x < Real.pi / 2) :
    atan2 (Real.sqrt (Real.sin x * Real.sin x))
      (Real.sqrt (1 - Real.sin x * Real.sin x)) = x := by
  have hπ := Real.pi_pos
  have hsin : 0 ≤ Real.sin x :=
    Real.sin_nonneg_of_nonneg_of_le_pi hx0 (by linarith)
  have hcos : 0 < Real.cos x :=
    Real.cos_pos_of_mem_Ioo ⟨by linarith, hx⟩
  have h1 : Real.sqrt (Real.sin x * Real.sin x) = Real.sin x :=
    Real.sqrt_mul_self hsin
  have h2 : 1 - Real.sin x * Real.sin x = Real.cos x * Real.cos x := by
    nlinarith [Real.sin_sq_add_cos_sq x]
  have h3 : Real.sqrt (Real.cos x * Real.cos x) = Real.cos x :=
    Real.sqrt_mul_self hcos.le
  rw [h1, h2, h3]
  unfold atan2
  rw [if_pos hcos, ← Real.tan_eq_sin_div_cos]
  exact Real.arctan_tan (by linarith) hx

lemma calculate_distance_eq (loc1 loc2 : GPSLocation) :
    calculate_distance loc1 loc2 =
      6371000 * (2 * atan2
        (Real.sqrt (Real.sin (radians (loc2.latitude - loc1.latitude) / 2) *
            Real.sin (radians (loc2.latitude - loc1.latitude) / 2) +
          Real.cos (radians loc1.latitude) * Real.cos (radians loc2.latitude) *
            Real.sin (radians (loc2.longitude - loc1.longitude) / 2) *
            Real.sin (radians (loc2.longitude - loc1.longitude) / 2)))
        (Real.sqrt (1 - (Real.sin (radians (loc2.latitude - loc1.latitude) / 2) *
            Real.sin (radians (loc2.latitude - loc1.latitude) / 2) +
          Real.cos (radians loc1.latitude) * Real.cos (radians loc2.latitude) *
            Real.sin (radians (loc2.longitude - loc1.longitude) / 2) *
            Real.sin (radians (loc2.longitude - loc1.longitude) / 2))))) := rfl

/-- Haversine evaluation along a meridian: for equal longitudes and a latitude
difference of at most one degree in absolute value, the distance is exactly
the Earth radius times the absolute latitude difference in radians. -/
lemma calculate_distance_same_longitude (loc1 loc2 : GPSLocation)
    (hlon : loc2.longitude = loc1.longitude)
    (habs : |loc2.latitude - loc1.latitude| ≤ 1) :
    calculate_distance loc1 loc2 =
      6371000 * radians |loc2.latitude - loc1.latitude| := by
  have hπ := Real.pi_pos
  have hll : loc2.longitude - loc1.longitude = 0 := by rw [hlon]; ring
  have hsin_sq : Real.sin (radians (loc2.latitude - loc1.latitude) / 2) *
        Real.sin (radians (loc2.latitude - loc1.latitude) / 2) =
      Real.sin (radians |loc2.latitude - loc1.latitude| / 2) *
        Real.sin (radians |loc2.latitude - loc1.latitude| / 2) := by
    rcases abs_cases (loc2.latitude - loc1.latitude) with ⟨he, _⟩ | ⟨he, _⟩
    · rw [he]
    · rw [he]
      have hneg : radians (-(loc2.latitude - loc1.latitude)) / 2 =
          -(radians (loc2.latitude - loc1.latitude) / 2) := by
        unfold radians
        ring
      rw [hneg, Real.sin_neg]
      ring
  have hd0 : 0 ≤ |loc2.latitude - loc1.latitude| := abs_nonneg _
  have hx0 : 0 ≤ radians |loc2.latitude - loc1.latitude| / 2 := by
    unfold radians
    positivity
  have hx : radians |loc2.latitude - loc1.latitude| / 2 < Real.pi / 2 := by
    unfold radians
    nlinarith
  rw [calculate_distance_eq, hll, radians_zero]
  simp only [zero_div, Real.sin_zero, mul_zero, add_zero]
  rw [hsin_sq, atan2_sin_cos hx0 hx]
  ring

lemma calculate_distance_zero_of_eq (loc1 loc2 : GPSLocation)
    (hlat : loc1.latitude = loc2.latitude) (hlon : loc1.longitude = loc2.longitude) :
    calculate_distance loc1 loc2 = 0 := by
  rw [calculate_distance_same_longitude loc1 loc2 hlon.symm (by rw [hlat]; simp),
    show |loc2.latitude - loc1.latitude| = 0 from by rw [hlat]; simp,
    radians_zero, mul_zero]

lemma cx4_step1 :
    add_gps_reading coordinate_name_stub 0 0 0 (some "home")
        { locations := [], location_sessions := [], current_location := none } =
      ("home",
       { locations := [{ latitude := 0, longitude := 0, timestamp := 0,
                         location_name := some "home" }],
         location_sessions :=
           [{ location := { latitude := 0, longitude := 0, timestamp := 0,
                            location_name := some "home" },
              start_time := 0, end_time := 0, devices_seen := [],
              session_id := "home" }],
         current_location := some 0 }) := by
  unfold add_gps_reading get_location_cluster_id update_current_session
  simp [find_session_within_threshold, find_continuable_session, fresh_location_id,
    show replace_spaces "home" = "home" from by decide]

lemma cx4_dist : calculate_distance
    { latitude := 0, longitude := 0, timestamp := 1000, location_name := some "home" }
    { latitude := 0, longitude := 0, timestamp := 0, location_name := some "home" } = 0 :=
  calculate_distance_zero_of_eq _ _ rfl rfl

lemma cx4_step2 :
    add_gps_reading coordinate_name_stub 1000 0 0 (some "home")
        { locations := [{ latitude := 0, longitude := 0, timestamp := 0,
                          location_name := some "home" }],
          location_sessions :=
            [{ location := { latitude := 0, longitude := 0, timestamp := 0,
                             location_name := some "home" },
               start_time := 0, end_time := 0, devices_seen := [],
               session_id := "home" }],
          current_location := some 0 } =
      ("home",
       { locations := [{ latitude := 0, longitude := 0, timestamp := 0,
                         location_name := some "home" },
                       { latitude := 0, longitude := 0, timestamp := 1000,
                         location_name := some "home" }],
         location_sessions :=
           [{ location := { latitude := 0, longitude := 0, timestamp := 0,
                            location_name := some "home" },
              start_time := 0, end_time := 0, devices_seen := [],
              session_id := "home" },
            { location := { latitude := 0, longitude := 0, timestamp := 1000,
                            location_name := some "home" },
              start_time := 1000, end_time := 1000, devices_seen := [],
              session_id := "home" }],
         current_location := some 1 }) := by
  have hle : calculate_distance
      { latitude := 0, longitude := 0, timestamp := 1000, location_name := some "home" }
      { latitude := 0, longitude := 0, timestamp := 0, location_name := some "home" } ≤
        location_threshold := by
    rw [cx4_dist]
    unfold location_threshold
    norm_num
  have hti : ¬ ((1000 : ℝ) - 0 ≤ session_timeout) := by
    unfold session_timeout
    norm_num
  have hti' : ¬ ((1000 : ℝ) ≤ session_timeout) := by
    unfold session_timeout
    norm_num
  unfold add_gps_reading get_location_cluster_id update_current_session
  simp [find_session_within_threshold, find_continuable_session, hle, hti, hti']

/-- Claim C4, counterexample: Re-entering a location cluster after the session
timeout creates a second session with the very same identifier: after a
reading labelled "home" at `t = 0` and another identical reading at
`t = 1000 > 600`, the tracker holds two sessions both named `"home"`. -/
theorem session_id_unique_counterexample :
    (((add_gps_reading coordinate_name_stub 1000 0 0 (some "home")
          (add_gps_reading coordinate_name_stub 0 0 0 (some "home")
            { locations := [], location_sessions := [],
              current_location := none }).2).2).location_sessions.map
        (·.session_id)) = ["home", "home"] ∧
      ¬ (((add_gps_reading coordinate_name_stub 1000 0 0 (some "home")
            (add_gps_reading coordinate_name_stub 0 0 0 (some "home")
              { locations := [], location_sessions := [],
                current_location := none }).2).2).location_sessions.map
          (·.session_id)).Nodup := by
  rw [cx4_step1, cx4_step2]
  exact ⟨rfl, by decide⟩

lemma find_session_within_threshold_eq_first {location : GPSLocation} :
    ∀ (sessions : List LocationSession) (i : ℕ) (hi : i < sessions.length),
      calculate_distance location (sessions.get ⟨i, hi⟩).location ≤
          location_threshold →
      (∀ j (hj : j < i), ¬ calculate_distance location
          (sessions.get ⟨j, by omega⟩).location ≤ location_threshold) →
      find_session_within_threshold location sessions =
        some (sessions.get ⟨i, hi⟩) := by
  intro sessions
  induction sessions with
  | nil =>
    intro i hi
    exact absurd hi (by simp)
  | cons s rest ih =>
    intro i hi hwithin hfirst
    cases i with
    | zero =>
      unfold find_session_within_threshold
      rw [if_pos (show calculate_distance location s.location ≤ location_threshold
        from hwithin)]
      rfl
    | succ j =>
      unfold find_session_within_threshold
      rw [if_neg (show ¬ calculate_distance location s.location ≤ location_threshold
        from hfirst 0 (Nat.succ_pos j))]
      exact ih j (by simpa using hi) hwithin fun j' hj' =>
        hfirst (j' + 1) (by omega)

/-- Claim C5, amended: When at least one existing session lies within the
location threshold of a new reading, the cluster id assigned is that of the
*first* such session in session-creation order — not necessarily the nearest
one (see the counterexample). -/
theorem get_location_cluster_id_first_within (coordinate_name : ℝ → ℝ → String)
    (st : GPSTracker) (location : GPSLocation) (i : ℕ)
    (hi : i < st.location_sessions.length)
    (hwithin : calculate_distance location
        (st.location_sessions.get ⟨i, hi⟩).location ≤ location_threshold)
    (hfirst : ∀ j (hj : j < i), ¬ calculate_distance location
        (st.location_sessions.get ⟨j, by omega⟩).location ≤ location_threshold) :
    get_location_cluster_id coordinate_name st location =
      (st.location_sessions.get ⟨i, hi⟩).session_id := by
  unfold get_location_cluster_id
  rw [find_session_within_threshold_eq_first st.location_sessions i hi hwithin hfirst]

lemma dist_cxReading_A :
    calculate_distance cxReading cxSessionA.location =
      6371000 * radians 0.0007 := by
  rw [calculate_distance_same_longitude cxReading cxSessionA.location
    (show cxSessionA.location.longitude = cxReading.longitude from rfl)
    (by norm_num [cxReading, cxSessionA, abs_of_nonneg, abs_of_nonpos])]
  norm_num [cxReading, cxSessionA, abs_of_nonneg, abs_of_nonpos]

lemma dist_cxReading_B :
    calculate_distance cxReading cxSessionB.location =
      6371000 * radians 0.0005 := by
  rw [calculate_distance_same_longitude cxReading cxSessionB.location
    (show cxSessionB.location.longitude = cxReading.longitude from rfl)
    (by norm_num [cxReading, cxSessionB, abs_of_nonneg, abs_of_nonpos])]
  norm_num [cxReading, cxSessionB, abs_of_nonneg, abs_of_nonpos]

lemma dist_cxReading_A_le :
    calculate_distance cxReading cxSessionA.location ≤ location_threshold := by
  rw [dist_cxReading_A]
  unfold radians location_threshold
  nlinarith [Real.pi_lt_d2, Real.pi_pos]

theorem get_location_cluster_id_first_within_witness :
    get_location_cluster_id coordinate_name_stub
        { locations := [], location_sessions := [cxSessionA],
          current_location := none } cxReading = "A" := by
  have h := get_location_cluster_id_first_within coordinate_name_stub
    { locations := [], location_sessions := [cxSessionA], current_location := none }
    cxReading 0 (by simp) dist_cxReading_A_le
    (fun j hj => absurd hj (Nat.not_lt_zero j))
  exact h

/-- Claim C5, counterexample: A reading within the threshold of two sessions
— strictly nearer to session `"B"` — is nevertheless assigned session `"A"`,
the first within the threshold in list order, refuting the nearest-session
claim. -/
theorem nearest_session_counterexample :
    calculate_distance cxReading cxSessionA.location ≤ location_threshold ∧
      calculate_distance cxReading cxSessionB.location ≤ location_threshold ∧
      calculate_distance cxReading cxSessionB.location <
        calculate_distance cxReading cxSessionA.location ∧
      cxSessionA.session_id ≠ cxSessionB.session_id ∧
      get_location_cluster_id coordinate_name_stub cxTracker cxReading =
        cxSessionA.session_id := by
  refine ⟨dist_cxReading_A_le, ?_, ?_, by decide, ?_⟩
  · rw [dist_cxReading_B]
    unfold radians location_threshold
    nlinarith [Real.pi_lt_d2, Real.pi_pos]
  · rw [dist_cxReading_A, dist_cxReading_B]
    unfold radians
    nlinarith [Real.pi_pos]
  · unfold get_location_cluster_id cxTracker
    rw [show find_session_within_threshold cxReading [cxSessionA, cxSessionB] =
        some cxSessionA from by
      unfold find_session_within_threshold
      rw [if_pos dist_cxReading_A_le]]

lemma add_device_update_session_id (mac : String) (s : LocationSession) :
    (add_device_update mac s).session_id = s.session_id := by
  unfold add_device_update
  by_cases hmem : mac ∈ s.devices_seen <;> simp [hmem]

lemma mem_add_device_update (mac : String) (s : LocationSession) :
    mac ∈ (add_device_update mac s).devices_seen := by
  unfold add_device_update
  by_cases hmem : mac ∈ s.devices_seen <;> simp [hmem]

lemma add_device_update_idem (mac : String) (s : LocationSession) :
    add_device_update mac (add_device_update mac s) = add_device_update mac s := by
  have := mem_add_device_update mac s
  unfold add_device_update at this ⊢
  by_cases hmem : mac ∈ s.devices_seen <;> simp_all

/-- Claim C7: Device attribution: with no current session the call returns
`none` and leaves the tracker unchanged; with a current session it returns
that session's identifier, ensures the device identifier is in the session's
device set, touches no other session and no other field, and a repeated
attribution of the same device is a no-op. -/
theorem add_device_at_current_location_spec (st : GPSTracker) (mac : String) :
    (st.current_location = none → add_device_at_current_location mac st = (none, st)) ∧
      ∀ i s, st.current_location = some i → st.location_sessions[i]? = some s →
        (add_device_at_current_location mac st).1 = some s.session_id ∧
          (add_device_at_current_location mac st).2.location_sessions[i]? =
            some (add_device_update mac s) ∧
          mac ∈ (add_device_update mac s).devices_seen ∧
          (∀ j, j ≠ i →
            (add_device_at_current_location mac st).2.location_sessions[j]? =
              st.location_sessions[j]?) ∧
          (add_device_at_current_location mac st).2.current_location =
            st.current_location ∧
          (add_device_at_current_location mac st).2.locations = st.locations ∧
          add_device_at_current_location mac
              (add_device_at_current_location mac st).2 =
            ((add_device_at_current_location mac st).1,
             (add_device_at_current_location mac st).2) := by
  constructor
  · intro h
    unfold add_device_at_current_location
    rw [h]
  · intro i s hc hs
    unfold add_device_at_current_location
    rw [hc]
    dsimp only
    refine ⟨by rw [hs]; rfl, ?_, mem_add_device_update mac s, ?_, rfl, rfl, ?_⟩
    · rw [List.getElem?_modify, hs]
      simp
    · intro j hj
      rw [List.getElem?_modify]
      cases hje : st.location_sessions[j]? with
      | none => rfl
      | some t =>
        simp [Ne.symm hj]
    · have hmod : (st.location_sessions.modify (add_device_update mac) i).modify
          (add_device_update mac) i =
          st.location_sessions.modify (add_device_update mac) i := by
        apply List.ext_getElem?
        intro n
        rw [List.getElem?_modify, List.getElem?_modify]
        cases hne : st.location_sessions[n]? with
        | none => rfl
        | some t =>
          by_cases hin : i = n <;> simp [hin, add_device_update_idem]
      rw [hmod, List.getElem?_modify, hs]
      simp [add_device_update_session_id]

theorem add_device_at_current_location_spec_witness :
    wTracker.current_location = some 0 ∧
      wTracker.location_sessions[0]? = some wSession ∧
      (add_device_at_current_location "BB:BB" wTracker).1 = some wSession.session_id ∧
      "BB:BB" ∈ (add_device_update "BB:BB" wSession).devices_seen ∧
      (wTrackerNone.current_location = none →
        add_device_at_current_location "BB:BB" wTrackerNone = (none, wTrackerNone)) := by
  have h := (add_device_at_current_location_spec wTracker "BB:BB").2 0 wSession rfl rfl
  have h0 := (add_device_at_current_location_spec wTrackerNone "BB:BB").1
  exact ⟨rfl, rfl, h.1, h.2.2.1, h0⟩

/-! ## Theorems about the rolling-window tracker -/

/-- Claim C8, amended: One rotation moves the 10–15 minute bucket into the
15–20 slot, the 5–10 bucket into the 10–15 slot, the current bucket into the
5–10 slot, and refreshes the current bucket with a fresh source query — for
both MAC and SSID buckets; after three rotations the original current bucket
has reached the oldest slot.  The claim's further assertion that the previous
oldest contents appear in *no* bucket afterwards is refuted by the
counterexample and is dropped here: the oldest *slot's value* is discarded,
but an identifier also present in a younger bucket survives the rotation. -/
theorem rotate_tracking_lists_shift (db db₂ db₃ : KismetDB)
    (b b₂ b₃ : TimeBoundaries) (m : SecureCYTMonitor) :
    (rotate_tracking_lists db b m).fifteen_twenty_min_ago_macs =
        m.ten_fifteen_min_ago_macs ∧
      (rotate_tracking_lists db b m).ten_fifteen_min_ago_macs =
        m.five_ten_min_ago_macs ∧
      (rotate_tracking_lists db b m).five_ten_min_ago_macs =
        m.past_five_mins_macs ∧
      (rotate_tracking_lists db b m).past_five_mins_macs =
        filter_macs m (get_mac_addresses_by_time_range db b.recent_time none) ∧
      (rotate_tracking_lists db b m).fifteen_twenty_min_ago_ssids =
        m.ten_fifteen_min_ago_ssids ∧
      (rotate_tracking_lists db b m).ten_fifteen_min_ago_ssids =
        m.five_ten_min_ago_ssids ∧
      (rotate_tracking_lists db b m).five_ten_min_ago_ssids =
        m.past_five_mins_ssids ∧
      (rotate_tracking_lists db b m).past_five_mins_ssids =
        filter_ssids m (get_probe_ssids_by_time_range db b.recent_time none) ∧
      (rotate_tracking_lists db₃ b₃ (rotate_tracking_lists db₂ b₂
          (rotate_tracking_lists db b m))).fifteen_twenty_min_ago_macs =
        m.past_five_mins_macs ∧
      (rotate_tracking_lists db₃ b₃ (rotate_tracking_lists db₂ b₂
          (rotate_tracking_lists db b m))).fifteen_twenty_min_ago_ssids =
        m.past_five_mins_ssids :=
  ⟨rfl, rfl, rfl, rfl, rfl, rfl, rfl, rfl, rfl, rfl⟩

/-- Claim C8, counterexample: A bucket state in which the same identifier sits
in the 10–15 and in the 15–20 minute bucket: after one rotation over an empty
source, the identifier — part of the oldest bucket's previous contents — is
still a member of the (new) oldest bucket, refuting "the oldest bucket's
previous contents appear in no bucket afterward". -/
theorem rotate_discard_counterexample :
    "AA:BB:CC:DD:EE:FF" ∈ cx8Monitor.fifteen_twenty_min_ago_macs ∧
      "AA:BB:CC:DD:EE:FF" ∈
        (rotate_tracking_lists [] cx8Boundaries
            cx8Monitor).fifteen_twenty_min_ago_macs := by
  constructor
  · decide
  · decide

lemma mem_filter_macs {m : SecureCYTMonitor} {db : KismetDB} {s : ℚ}
    {e : Option ℚ} {mac : String} :
    mac ∈ filter_macs m (get_mac_addresses_by_time_range db s e) ↔
      mac ∉ m.ignore_list ∧ ∃ r ∈ db, in_time_range s e r = true ∧
        r.devmac ≠ "" ∧ py_upper r.devmac = mac := by
  unfold filter_macs get_mac_addresses_by_time_range
  simp only [List.mem_toFinset, List.mem_filter, List.mem_map, decide_eq_true_eq,
    ne_eq]
  constructor
  · rintro ⟨⟨x, hx, rfl⟩, hign⟩
    obtain ⟨⟨r, ⟨hr, hrange⟩, rfl⟩, hne⟩ := hx
    exact ⟨hign, r, hr, hrange, hne, rfl⟩
  · rintro ⟨hign, r, hr, hrange, hne, rfl⟩
    exact ⟨⟨r.devmac, ⟨⟨r, ⟨hr, hrange⟩, rfl⟩, hne⟩, rfl⟩, hign⟩

lemma mem_filter_ssids {m : SecureCYTMonitor} {db : KismetDB} {s : ℚ}
    {e : Option ℚ} {ssid : String} :
    ssid ∈ filter_ssids m (get_probe_ssids_by_time_range db s e) ↔
      ssid ∉ m.ssid_ignore_list ∧ ∃ r ∈ db, in_time_range s e r = true ∧
        extract_probe_ssid r = some ssid := by
  unfold filter_ssids get_probe_ssids_by_time_range
  simp only [List.mem_toFinset, List.mem_filter, List.mem_filterMap,
    decide_eq_true_eq, ne_eq]
  constructor
  · rintro ⟨⟨r, ⟨hr, hrange⟩, hex⟩, -, hign⟩
    exact ⟨hign, r, hr, hrange, hex⟩
  · rintro ⟨hign, r, hr, hrange, hex⟩
    refine ⟨⟨r, ⟨hr, hrange⟩, hex⟩, ?_, hign⟩
    unfold extract_probe_ssid at hex
    cases hps : r.probed_ssid with
    | none =>
      rw [hps] at hex
      simp at hex
    | some s' =>
      rw [hps] at hex
      by_cases hs' : s' = ""
      · simp [hs'] at hex
      · simp only [ne_eq, hs', not_false_iff, if_true] at hex
        rw [← Option.some_inj.mp hex]
        exact hs'

lemma filter_macs_range_disjoint (m m' : SecureCYTMonitor) (db : KismetDB)
    (s₁ s₂ : ℚ) (e₁ e₂ : Option ℚ)
    (hinj : ∀ r₁ ∈ db, ∀ r₂ ∈ db, py_upper r₁.devmac = py_upper r₂.devmac → r₁ = r₂)
    (hsep : ∀ r ∈ db, ¬ (in_time_range s₁ e₁ r = true ∧ in_time_range s₂ e₂ r = true)) :
    Disjoint (filter_macs m (get_mac_addresses_by_time_range db s₁ e₁))
      (filter_macs m' (get_mac_addresses_by_time_range db s₂ e₂)) := by
  rw [Finset.disjoint_left]
  intro mac h₁ h₂
  rw [mem_filter_macs] at h₁ h₂
  obtain ⟨-, r₁, hr₁, ht₁, -, hm₁⟩ := h₁
  obtain ⟨-, r₂, hr₂, ht₂, -, hm₂⟩ := h₂
  have heq := hinj r₁ hr₁ r₂ hr₂ (by rw [hm₁, hm₂])
  exact hsep r₁ hr₁ ⟨ht₁, heq ▸ ht₂⟩

lemma filter_ssids_range_disjoint (m m' : SecureCYTMonitor) (db : KismetDB)
    (s₁ s₂ : ℚ) (e₁ e₂ : Option ℚ)
    (hinj : ∀ r₁ ∈ db, ∀ r₂ ∈ db, extract_probe_ssid r₁ = extract_probe_ssid r₂ →
      extract_probe_ssid r₁ = none ∨ r₁ = r₂)
    (hsep : ∀ r ∈ db, ¬ (in_time_range s₁ e₁ r = true ∧ in_time_range s₂ e₂ r = true)) :
    Disjoint (filter_ssids m (get_probe_ssids_by_time_range db s₁ e₁))
      (filter_ssids m' (get_probe_ssids_by_time_range db s₂ e₂)) := by
  rw [Finset.disjoint_left]
  intro ssid h₁ h₂
  rw [mem_filter_ssids] at h₁ h₂
  obtain ⟨-, r₁, hr₁, ht₁, hx₁⟩ := h₁
  obtain ⟨-, r₂, hr₂, ht₂, hx₂⟩ := h₂
  rcases hinj r₁ hr₁ r₂ hr₂ (by rw [hx₁, hx₂]) with hnone | heq
  · rw [hx₁] at hnone
    exact absurd hnone (by simp)
  · exact hsep r₁ hr₁ ⟨ht₁, heq ▸ ht₂⟩

lemma in_time_range_iff {s : ℚ} {e : Option ℚ} {r : KismetRow} :
    in_time_range s e r = true ↔
      s ≤ r.last_time ∧ (∀ x, e = some x → r.last_time ≤ x) := by
  unfold in_time_range
  rcases e with - | x <;> simp

/-- Claim C9, amended: Immediately after initialization the four buckets of a
kind are pairwise disjoint *provided* the window boundaries are strictly
ordered, no reading sits exactly on a shared boundary, and distinct rows never
carry the same (uppercased) MAC respectively the same probe SSID.  Without
those provisos — and after rotations, where consecutive fresh queries can
repeat identifiers — disjointness fails (see the counterexample). -/
theorem init_buckets_disjoint_of_separated (db : KismetDB) (b : TimeBoundaries)
    (m : SecureCYTMonitor)
    (hom : b.old_time < b.medium_time) (hmr : b.medium_time < b.recent_time)
    (hmac : ∀ r₁ ∈ db, ∀ r₂ ∈ db, py_upper r₁.devmac = py_upper r₂.devmac → r₁ = r₂)
    (hssid : ∀ r₁ ∈ db, ∀ r₂ ∈ db, extract_probe_ssid r₁ = extract_probe_ssid r₂ →
      extract_probe_ssid r₁ = none ∨ r₁ = r₂)
    (hbnd : ∀ r ∈ db, r.last_time ≠ b.recent_time ∧ r.last_time ≠ b.medium_time ∧
      r.last_time ≠ b.old_time) :
    (Disjoint (init_tracking_lists db b m).past_five_mins_macs
        (init_tracking_lists db b m).five_ten_min_ago_macs ∧
      Disjoint (init_tracking_lists db b m).past_five_mins_macs
        (init_tracking_lists db b m).ten_fifteen_min_ago_macs ∧
      Disjoint (init_tracking_lists db b m).past_five_mins_macs
        (init_tracking_lists db b m).fifteen_twenty_min_ago_macs ∧
      Disjoint (init_tracking_lists db b m).five_ten_min_ago_macs
        (init_tracking_lists db b m).ten_fifteen_min_ago_macs ∧
      Disjoint (init_tracking_lists db b m).five_ten_min_ago_macs
        (init_tracking_lists db b m).fifteen_twenty_min_ago_macs ∧
      Disjoint (init_tracking_lists db b m).ten_fifteen_min_ago_macs
        (init_tracking_lists db b m).fifteen_twenty_min_ago_macs) ∧
    (Disjoint (init_tracking_lists db b m).past_five_mins_ssids
        (init_tracking_lists db b m).five_ten_min_ago_ssids ∧
      Disjoint (init_tracking_lists db b m).past_five_mins_ssids
        (init_tracking_lists db b m).ten_fifteen_min_ago_ssids ∧
      Disjoint (init_tracking_lists db b m).past_five_mins_ssids
        (init_tracking_lists db b m).fifteen_twenty_min_ago_ssids ∧
      Disjoint (init_tracking_lists db b m).five_ten_min_ago_ssids
        (init_tracking_lists db b m).ten_fifteen_min_ago_ssids ∧
      Disjoint (init_tracking_lists db b m).five_ten_min_ago_ssids
        (init_tracking_lists db b m).fifteen_twenty_min_ago_ssids ∧
      Disjoint (init_tracking_lists db b m).ten_fifteen_min_ago_ssids
        (init_tracking_lists db b m).fifteen_twenty_min_ago_ssids) := by
  have sep₁ : ∀ r ∈ db, ¬ (in_time_range b.recent_time none r = true ∧
      in_time_range b.medium_time (some b.recent_time) r = true) := by
    intro r hr ⟨h₁, h₂⟩
    rw [in_time_range_iff] at h₁ h₂
    exact (hbnd r hr).1 (le_antisymm (h₂.2 _ rfl) h₁.1)
  have sep₂ : ∀ r ∈ db, ¬ (in_time_range b.recent_time none r = true ∧
      in_time_range b.old_time (some b.medium_time) r = true) := by
    intro r hr ⟨h₁, h₂⟩
    rw [in_time_range_iff] at h₁ h₂
    have := h₂.2 _ rfl
    linarith [h₁.1]
  have sep₃ : ∀ r ∈ db, ¬ (in_time_range b.recent_time none r = true ∧
      in_time_range b.oldest_time (some b.old_time) r = true) := by
    intro r hr ⟨h₁, h₂⟩
    rw [in_time_range_iff] at h₁ h₂
    have := h₂.2 _ rfl
    linarith [h₁.1]
  have sep₄ : ∀ r ∈ db, ¬ (in_time_range b.medium_time (some b.recent_time) r = true ∧
      in_time_range b.old_time (some b.medium_time) r = true) := by
    intro r hr ⟨h₁, h₂⟩
    rw [in_time_range_iff] at h₁ h₂
    exact (hbnd r hr).2.1 (le_antisymm (h₂.2 _ rfl) h₁.1)
  have sep₅ : ∀ r ∈ db, ¬ (in_time_range b.medium_time (some b.recent_time) r = true ∧
      in_time_range b.oldest_time (some b.old_time) r = true) := by
    intro r hr ⟨h₁, h₂⟩
    rw [in_time_range_iff] at h₁ h₂
    have := h₂.2 _ rfl
    linarith [h₁.1]
  have sep₆ : ∀ r ∈ db, ¬ (in_time_range b.old_time (some b.medium_time) r = true ∧
      in_time_range b.oldest_time (some b.old_time) r = true) := by
    intro r hr ⟨h₁, h₂⟩
    rw [in_time_range_iff] at h₁ h₂
    exact (hbnd r hr).2.2 (le_antisymm (h₂.2 _ rfl) h₁.1)
  exact ⟨⟨filter_macs_range_disjoint _ _ db _ _ _ _ hmac sep₁,
      filter_macs_range_disjoint _ _ db _ _ _ _ hmac sep₂,
      filter_macs_range_disjoint _ _ db _ _ _ _ hmac sep₃,
      filter_macs_range_disjoint _ _ db _ _ _ _ hmac sep₄,
      filter_macs_range_disjoint _ _ db _ _ _ _ hmac sep₅,
      filter_macs_range_disjoint _ _ db _ _ _ _ hmac sep₆⟩,
    ⟨filter_ssids_range_disjoint _ _ db _ _ _ _ hssid sep₁,
      filter_ssids_range_disjoint _ _ db _ _ _ _ hssid sep₂,
      filter_ssids_range_disjoint _ _ db _ _ _ _ hssid sep₃,
      filter_ssids_range_disjoint _ _ db _ _ _ _ hssid sep₄,
      filter_ssids_range_disjoint _ _ db _ _ _ _ hssid sep₅,
      filter_ssids_range_disjoint _ _ db _ _ _ _ hssid sep₆⟩⟩

theorem init_buckets_disjoint_of_separated_witness :
    Disjoint (init_tracking_lists wDB wBnds (mk_monitor [] [])).past_five_mins_macs
        (init_tracking_lists wDB wBnds (mk_monitor [] [])).five_ten_min_ago_macs ∧
      Disjoint (init_tracking_lists wDB wBnds (mk_monitor [] [])).past_five_mins_ssids
        (init_tracking_lists wDB wBnds (mk_monitor [] [])).five_ten_min_ago_ssids :=
  ⟨(init_buckets_disjoint_of_separated wDB wBnds (mk_monitor [] [])
      (by norm_num [wBnds]) (by norm_num [wBnds]) (by decide) (by decide)
      (by decide)).1.1,
    (init_buckets_disjoint_of_separated wDB wBnds (mk_monitor [] [])
      (by norm_num [wBnds]) (by norm_num [wBnds]) (by decide) (by decide)
      (by decide)).2.1⟩

/-- Claim C9, counterexample: A reading whose timestamp is exactly the shared
boundary of the 0–5 and 5–10 minute query windows lands in both buckets
immediately after initialization, refuting bucket disjointness as stated. -/
theorem buckets_disjoint_counterexample :
    "AA:BB" ∈ (init_tracking_lists cx9DB cx9Boundaries
        (mk_monitor [] [])).past_five_mins_macs ∧
      "AA:BB" ∈ (init_tracking_lists cx9DB cx9Boundaries
        (mk_monitor [] [])).five_ten_min_ago_macs := by
  constructor
  · decide
  · decide

lemma toUpper_isLower_eq_false (c : Char) : (Char.toUpper c).isLower = false := by
  unfold Char.toUpper
  dsimp only [Char.toNat]
  by_cases h : c.val.toNat ≥ 97 ∧ c.val.toNat ≤ 122
  · rw [if_pos h]
    have hvalid : Char.isValidCharNat (c.val.toNat - 32) := Or.inl (by omega)
    have htoNat : (Char.ofNat (c.val.toNat - 32)).val.toBitVec.toNat =
        c.val.toNat - 32 := by
      unfold Char.ofNat
      rw [dif_pos hvalid]
      rfl
    have hge : ¬ ((97 : UInt32) ≤ (Char.ofNat (c.val.toNat - 32)).val) := by
      rw [UInt32.le_def, BitVec.le_def, htoNat,
        show ((97 : UInt32)).toBitVec.toNat = 97 from rfl]
      omega
    unfold Char.isLower
    simp only [ge_iff_le, decide_eq_false hge, Bool.false_and]
  · rw [if_neg h]
    unfold Char.isLower
    by_cases h1 : 97 ≤ c.val.toNat
    · have h2 : ¬ (c.val ≤ (122 : UInt32)) := by
        rw [UInt32.le_def, BitVec.le_def]
        exact fun hh => h ⟨h1, hh⟩
      simp only [decide_eq_false h2, Bool.and_false]
    · have h2 : ¬ ((97 : UInt32) ≤ c.val) := by
        rw [UInt32.le_def, BitVec.le_def]
        exact h1
      simp only [ge_iff_le, decide_eq_false h2, Bool.false_and]

lemma lower_char_not_mem_filter_macs {mac : String} {m : SecureCYTMonitor}
    {l : List String} (hlower : ∃ c ∈ mac.data, c.isLower = true) :
    mac ∉ filter_macs m l := by
  intro hmem
  unfold filter_macs at hmem
  simp only [List.mem_toFinset, List.mem_filter, List.mem_map] at hmem
  obtain ⟨⟨x, -, rfl⟩, -⟩ := hmem
  obtain ⟨c, hc, hlc⟩ := hlower
  have hc' : c ∈ x.data.map Char.toUpper := hc
  obtain ⟨c', -, rfl⟩ := List.mem_map.mp hc'
  rw [toUpper_isLower_eq_false] at hlc
  cases hlc

/-- Claim C10: The historical MAC buckets hold uppercase-normalized
identifiers, while the live reappearance check tests raw string membership
(only the ignore check uppercases); hence an incoming identifier containing a
lowercase letter never matches a bucket entry and never triggers a
reappearance signal. -/
theorem lowercase_mac_no_reappearance (m m₁ m₂ m₃ : SecureCYTMonitor)
    (l₁ l₂ l₃ : List String) (mac : String)
    (h₁ : m.five_ten_min_ago_macs = filter_macs m₁ l₁)
    (h₂ : m.ten_fifteen_min_ago_macs = filter_macs m₂ l₂)
    (h₃ : m.fifteen_twenty_min_ago_macs = filter_macs m₃ l₃)
    (hlower : ∃ c ∈ mac.data, c.isLower = true) :
    process_mac_tracking m mac = [] := by
  unfold process_mac_tracking
  by_cases hign : py_upper mac ∈ m.ignore_list
  · rw [if_pos hign]
  · rw [if_neg hign, h₁, h₂, h₃,
      if_neg (lower_char_not_mem_filter_macs hlower),
      if_neg (lower_char_not_mem_filter_macs hlower),
      if_neg (lower_char_not_mem_filter_macs hlower)]
    rfl

theorem lowercase_mac_no_reappearance_witness :
    (∃ c ∈ "aa:bb:cc:dd:ee:ff".data, c.isLower = true) ∧
      process_mac_tracking (init_tracking_lists wDB wBnds (mk_monitor [] []))
        "aa:bb:cc:dd:ee:ff" = [] :=
  ⟨by decide,
    lowercase_mac_no_reappearance _ _ _ _ _ _ _ _ rfl rfl rfl (by decide)⟩

end CYT
